import Mathlib

/-!
Shallow embedding of the delay-based congestion controller implemented in
src/common/rfb/Congestion.cxx (class rfb::Congestion).

All state fields of the C++ class are 32-bit unsigned integers; they are
modelled as Nat together with an explicit reduction modulo 2^32 at exactly
the places where the C code's unsigned arithmetic can wrap.  The sentinel
value (unsigned)-1 that the code stores for "unset" is UNSET = 2^32 - 1.
Timestamps (struct timeval in the C code) are modelled as a monotonic
millisecond counter; every public operation receives the current clock
reading `now` as an explicit argument in place of the C code's internal
gettimeofday calls, and msSince(&x) becomes msBetween x now.
-/

/-- 2^32, the modulus of the C code's `unsigned` arithmetic. -/
def U32LIM : Nat := 4294967296

/-- The sentinel (unsigned)-1 that Congestion.cxx stores in baseRTT, minRTT
and minCongestedRTT to mean "unset" (lines 60-61, 97, 100, 413). -/
def UNSET : Nat := 4294967295

/-- 32-bit unsigned subtraction `a - b` (wraparound), for operands below 2^32. -/
def sub32 (a b : Nat) : Nat := (a + U32LIM - b) % U32LIM

/-- Conversion of a 32-bit unsigned value to a signed 32-bit int, as happens
when the int-valued getUncongestedETA returns the unsigned `eta - elapsed`. -/
def toInt32 (n : Nat) : Int := if n < 2147483648 then (n : Int) else (n : Int) - 4294967296

/-- Modelled from the spec: msBetween/msSince of rfb/util.h are not among the
sources.  Per spec sections 3 and 5 the controller consumes a monotonic
millisecond clock, and the helper returns the elapsed milliseconds from `a`
to `b` as a 32-bit `unsigned` value. -/
def msBetween (a b : Nat) : Nat := (b - a) % U32LIM

/-- INITIAL_WINDOW (Congestion.cxx line 46). -/
def INITIAL_WINDOW : Nat := 16384

/-- MINIMUM_WINDOW (Congestion.cxx line 50). -/
def MINIMUM_WINDOW : Nat := 4096

/-- MAXIMUM_WINDOW (Congestion.cxx line 54). -/
def MAXIMUM_WINDOW : Nat := 4194304

/-- struct Congestion::RTTInfo: one outstanding ping (tv = send time, pos =
lastPosition at send time, extra = getExtraBuffer() at send time, congested =
isCongested() at send time); see Congestion::sentPing, lines 120-132. -/
structure RTTInfo where
  tv : Nat
  pos : Nat
  extra : Nat
  congested : Bool
deriving DecidableEq, Repr

/-- The state of class rfb::Congestion (fields per Congestion.cxx; the
member declarations live in rfb/Congestion.h, which is not among the sources,
but every field's type and use is visible in the .cxx: all counters are
`unsigned`, timestamps are timevals, pings is a FIFO of RTTInfo). -/
structure Congestion where
  lastPosition : Nat
  extraBuffer : Nat
  baseRTT : Nat
  congWindow : Nat
  measurements : Nat
  minRTT : Nat
  minCongestedRTT : Nat
  lastUpdate : Nat
  lastSent : Nat
  lastPong : RTTInfo
  lastPongArrival : Nat
  lastAdjustment : Nat
  pings : List RTTInfo
deriving DecidableEq, Repr

/-- Congestion::Congestion() (lines 58-68): counters zeroed, baseRTT, minRTT
and minCongestedRTT set to (unsigned)-1, congWindow = INITIAL_WINDOW, all
timestamps set to the current time t0, lastPong memset to zero. -/
def Congestion.init (t0 : Nat) : Congestion :=
  { lastPosition := 0
    extraBuffer := 0
    baseRTT := UNSET
    congWindow := INITIAL_WINDOW
    measurements := 0
    minRTT := UNSET
    minCongestedRTT := UNSET
    lastUpdate := t0
    lastSent := t0
    lastPong := ⟨0, 0, 0, false⟩
    lastPongArrival := t0
    lastAdjustment := t0
    pings := [] }

/-- The buffering-delay compensation term `extra * baseRTT / congWindow`
(32-bit multiply, then unsigned divide), used at lines 165, 234/236, 260/262
and 320/322. -/
def bufDelay (extra b cw : Nat) : Nat := (extra * b) % U32LIM / cw

/-- The compensated inter-pong spacing used both in Congestion::getInFlight
(lines 318-326) and Congestion::getUncongestedETA (lines 232-240, 259-266):
etaNext = msBetween(prev.tv, cur.tv); etaNext += cur.extra*baseRTT/congWindow;
then subtract prev.extra*baseRTT/congWindow, flooring at 0. -/
def compEta (prevTv prevExtra curTv curExtra b cw : Nat) : Nat :=
  let e1 := (msBetween prevTv curTv + bufDelay curExtra b cw) % U32LIM
  let d := bufDelay prevExtra b cw
  if d ≥ e1 then 0 else e1 - d

/-- Congestion::getExtraBuffer() (lines 275-290). -/
def Congestion.getExtraBuffer (s : Congestion) (now : Nat) : Nat :=
  if s.baseRTT = UNSET then 0
  else
    let consumed := msBetween s.lastUpdate now * s.congWindow % U32LIM / s.baseRTT
    if consumed ≥ s.extraBuffer then 0 else s.extraBuffer - consumed

/-- Congestion::getInFlight() (lines 292-357). -/
def Congestion.getInFlight (s : Congestion) (now : Nat) : Nat :=
  if s.lastPosition = s.lastPong.pos then 0
  else if s.baseRTT = UNSET then
    match s.pings with
    | nextPong :: _ => sub32 s.lastPosition nextPong.pos
    | [] => 0
  else
    match s.pings with
    | nextPong :: _ =>
      let etaNext := compEta s.lastPong.tv s.lastPong.extra nextPong.tv nextPong.extra
        s.baseRTT s.congWindow
      let elapsed := msBetween s.lastPongArrival now
      let acked :=
        if etaNext ≤ elapsed then nextPong.pos
        else (s.lastPong.pos + sub32 nextPong.pos s.lastPong.pos * elapsed % U32LIM / etaNext)
          % U32LIM
      sub32 s.lastPosition acked
    | [] =>
      let elapsed := msBetween s.lastUpdate now
      let acked0 :=
        if elapsed ≤ s.baseRTT then 0 else (elapsed - s.baseRTT) * s.congWindow % U32LIM / s.baseRTT
      let acked1 := if acked0 > s.extraBuffer then s.extraBuffer else acked0
      sub32 s.lastPosition ((sub32 s.lastPosition s.extraBuffer + acked1) % U32LIM)

/-- Congestion::isCongested() (lines 196-202). -/
def Congestion.isCongested (s : Congestion) (now : Nat) : Bool :=
  if s.getInFlight now < s.congWindow then false else true

/-- Congestion::sentPing() (lines 120-132). -/
def Congestion.sentPing (s : Congestion) (now : Nat) : Congestion :=
  { s with pings :=
      s.pings ++ [⟨now, s.lastPosition, s.getExtraBuffer now, s.isCongested now⟩] }

/-- The idle test of Congestion::updatePosition (line 88):
msBetween(&lastSent, &now) > __rfbmax(baseRTT*2, 100), where baseRTT*2 is a
32-bit unsigned multiplication. -/
def idleCond (b lastSentNew now : Nat) : Bool :=
  decide (max (b * 2 % U32LIM) 100 < msBetween lastSentNew now)

/-- Congestion::updatePosition(unsigned pos) (lines 74-118). -/
def Congestion.updatePosition (s : Congestion) (now pos : Nat) : Congestion :=
  let delta := sub32 pos s.lastPosition
  let ls := if 0 < delta ∨ 0 < s.extraBuffer then now else s.lastSent
  let s1 :=
    if idleCond s.baseRTT ls now then
      { s with lastSent := ls
               congWindow := min INITIAL_WINDOW s.congWindow
               baseRTT := UNSET
               measurements := 0
               lastAdjustment := now
               minRTT := UNSET
               minCongestedRTT := UNSET }
    else { s with lastSent := ls }
  let s2 :=
    if s1.baseRTT ≠ UNSET then
      let eb := (s1.extraBuffer + delta) % U32LIM
      let consumed := msBetween s.lastUpdate now * s1.congWindow % U32LIM / s1.baseRTT
      { s1 with extraBuffer := if eb < consumed then 0 else eb - consumed }
    else s1
  { s2 with lastPosition := pos % U32LIM, lastUpdate := now }

/-- The clamp of congWindow to [MINIMUM_WINDOW, MAXIMUM_WINDOW] at the end of
Congestion::updateCongestion (lines 400-403). -/
def clampWin (w : Nat) : Nat :=
  if w < MINIMUM_WINDOW then MINIMUM_WINDOW
  else if w > MAXIMUM_WINDOW then MAXIMUM_WINDOW
  else w

/-- The window-adjustment case split of Congestion::updateCongestion
(lines 376-398), on the unsigned differences diff = minRTT - baseRTT and
diff = minCongestedRTT - baseRTT. -/
def windowStep (cw b mr mc : Nat) : Nat :=
  if sub32 mr b > 100 then cw * b % U32LIM / mr
  else if sub32 mr b > 50 then sub32 cw 4096
  else if sub32 mc b < 5 then (cw + 8192) % U32LIM
  else if sub32 mc b < 25 then (cw + 4096) % U32LIM
  else cw

/-- Congestion::updateCongestion() (lines 359-414).  The two asserts at
lines 367-368 have no effect on the state and are modelled separately as the
invariant of claim C7. -/
def Congestion.updateCongestion (s : Congestion) (now : Nat) : Congestion :=
  if s.measurements < 3 then s
  else
    { s with congWindow := clampWin (windowStep s.congWindow s.baseRTT s.minRTT s.minCongestedRTT)
             measurements := 0
             lastAdjustment := now
             minRTT := UNSET
             minCongestedRTT := UNSET }

/-- The part of Congestion::gotPong() (lines 134-192) up to, but excluding,
the call to updateCongestion(): pop the front ping, record it as lastPong,
update baseRTT from the raw RTT, return early for a stale ping, otherwise
compensate the RTT for buffering, clamp it to baseRTT, fold it into the batch
minima and count the measurement. -/
def Congestion.gotPongCore (s : Congestion) (now : Nat) : Congestion :=
  match s.pings with
  | [] => s
  | rttInfo :: rest =>
    let s1 := { s with pings := rest, lastPong := rttInfo, lastPongArrival := now }
    let rtt1 := max 1 (msBetween rttInfo.tv now)
    let s2 := if rtt1 < s1.baseRTT then { s1 with baseRTT := rtt1 } else s1
    if rttInfo.tv < s.lastAdjustment then s2
    else
      let d := bufDelay rttInfo.extra s2.baseRTT s2.congWindow
      let rtt2 := if d < rtt1 then rtt1 - d else 1
      let rtt3 := if rtt2 < s2.baseRTT then s2.baseRTT else rtt2
      { s2 with minRTT := min s2.minRTT rtt3
                minCongestedRTT :=
                  if rttInfo.congested then min s2.minCongestedRTT rtt3 else s2.minCongestedRTT
                measurements := s2.measurements + 1 }

/-- Whether Congestion::gotPong() reaches the updateCongestion() call, i.e.
neither the empty-queue return (line 140) nor the stale-ping return
(line 161) fires. -/
def Congestion.gotPongRuns (s : Congestion) : Bool :=
  match s.pings with
  | [] => false
  | rttInfo :: _ => decide (¬ rttInfo.tv < s.lastAdjustment)

/-- Congestion::gotPong() (lines 134-194). -/
def Congestion.gotPong (s : Congestion) (now : Nat) : Congestion :=
  if s.gotPongRuns then (s.gotPongCore now).updateCongestion now else s.gotPongCore now

/-- The walk over the ping queue in Congestion::getUncongestedETA
(lines 224-272), including the final synthetic interval when no queued ping
crosses targetAcked.  Note the Nat divisions here totalise the C code's
unsigned divisions; the C code has no guard against a zero divisor
(see claim C9). -/
def etaLoop (s : Congestion) (targetAcked elapsed : Nat) :
    RTTInfo → Nat → List RTTInfo → Nat
  | prevPing, eta, [] =>
    let etaNext := compEta prevPing.tv prevPing.extra s.lastUpdate s.extraBuffer
      s.baseRTT s.congWindow
    let eta2 := (eta + etaNext * sub32 s.lastPosition targetAcked % U32LIM
      / sub32 s.lastPosition prevPing.pos) % U32LIM
    if elapsed > eta2 then 0 else eta2 - elapsed
  | prevPing, eta, cur :: rest =>
    let etaNext := compEta prevPing.tv prevPing.extra cur.tv cur.extra s.baseRTT s.congWindow
    if cur.pos > targetAcked then
      let eta2 := (eta + etaNext * sub32 cur.pos targetAcked % U32LIM
        / sub32 cur.pos prevPing.pos) % U32LIM
      if elapsed > eta2 then 0 else eta2 - elapsed
    else
      etaLoop s targetAcked elapsed cur ((eta + etaNext) % U32LIM) rest

/-- Congestion::getUncongestedETA() (lines 204-273). -/
def Congestion.getUncongestedETA (s : Congestion) (now : Nat) : Int :=
  if s.lastPong.pos > sub32 s.lastPosition s.congWindow then 0
  else if s.baseRTT = UNSET then -1
  else toInt32 (etaLoop s (sub32 s.lastPosition s.congWindow)
    (msBetween s.lastPongArrival now) s.lastPong 0 s.pings)

/-- Mirrors the control flow of etaLoop and reports whether the division it
performs has a zero divisor (iter->pos - prevPing->pos at line 244, or
lastPosition - prevPing->pos at line 268). -/
def etaLoopDivZero (targetAcked lastPosition : Nat) : RTTInfo → List RTTInfo → Bool
  | prevPing, [] => decide (sub32 lastPosition prevPing.pos = 0)
  | prevPing, cur :: rest =>
    if cur.pos > targetAcked then decide (sub32 cur.pos prevPing.pos = 0)
    else etaLoopDivZero targetAcked lastPosition cur rest

/-- Whether Congestion::getUncongestedETA() reaches an interpolation division
whose divisor is zero (undefined behaviour in the C code). -/
def Congestion.etaHitsDivZero (s : Congestion) : Bool :=
  if s.lastPong.pos > sub32 s.lastPosition s.congWindow then false
  else if s.baseRTT = UNSET then false
  else etaLoopDivZero (sub32 s.lastPosition s.congWindow) s.lastPosition s.lastPong s.pings

/-- The public mutating operations of the controller.  The query operations
(isCongested, getInFlight, getUncongestedETA, getExtraBuffer) do not modify
the state and therefore do not appear in traces. -/
inductive CtrlOp where
  | updatePos (pos : Nat)
  | sentPing
  | gotPong
deriving DecidableEq, Repr

/-- One public call, at clock reading `now`. -/
def ctrlStep (s : Congestion) : Nat × CtrlOp → Congestion
  | (now, CtrlOp.updatePos pos) => s.updatePosition now pos
  | (now, CtrlOp.sentPing) => s.sentPing now
  | (now, CtrlOp.gotPong) => s.gotPong now

/-- Run a sequence of timed public calls. -/
def runOps (s : Congestion) (ops : List (Nat × CtrlOp)) : Congestion :=
  ops.foldl ctrlStep s

/-- The clock readings of a trace are non-decreasing starting from t0
(the monotonic clock of spec section 5). -/
def timesMonoB : Nat → List (Nat × CtrlOp) → Bool
  | _, [] => true
  | t, (t1, _) :: rest => decide (t ≤ t1) && timesMonoB t1 rest

/-- A state is reachable when some monotonically timed sequence of public
calls leads to it from a freshly constructed controller. -/
def Reachable (s : Congestion) : Prop :=
  ∃ t0 ops, timesMonoB t0 ops = true ∧ s = runOps (Congestion.init t0) ops

/-- Trace for claim C4's counterexample: three pings sent at t = 0, two of
their pongs arriving at t = 4294967291 (an RTT of 2^32 - 5 ms).  All three
pings are uncongested, so minCongestedRTT stays UNSET. -/
def ops4c : List (Nat × CtrlOp) :=
  [(0, CtrlOp.sentPing), (0, CtrlOp.sentPing), (0, CtrlOp.sentPing),
   (4294967291, CtrlOp.gotPong), (4294967291, CtrlOp.gotPong)]

/-- The state just before the third gotPong of ops4c. -/
def s4pre : Congestion := runOps (Congestion.init 0) ops4c

/-- A concrete state exercising the 50 < diff ≤ 100 branch of
updateCongestion, for claim C4's witness. -/
def s4w : Congestion :=
  { Congestion.init 0 with baseRTT := 50, minRTT := 120, measurements := 3 }

/-- Trace for claim C5's counterexample: learn baseRTT = 50 from one pong,
write congWindow bytes, then send a second ping.  At t = 100 the in-flight
interpolation reports 8192 < congWindow (not congested) while the ETA walk
still returns 50 ms. -/
def ops5c : List (Nat × CtrlOp) :=
  [(0, CtrlOp.sentPing), (50, CtrlOp.gotPong),
   (50, CtrlOp.updatePos 16384), (100, CtrlOp.sentPing)]

/-- The state reached by ops5c. -/
def s5c : Congestion := runOps (Congestion.init 0) ops5c

/-- Trace for claim C5's witness: a state with baseRTT set whose lastPong.pos
(20000) exceeds lastPosition - congWindow = 3616. -/
def ops5w : List (Nat × CtrlOp) :=
  [(0, CtrlOp.updatePos 20000), (0, CtrlOp.sentPing), (50, CtrlOp.gotPong)]

/-- The state reached by ops5w. -/
def s5w : Congestion := runOps (Congestion.init 0) ops5w

/-- Trace for claim C6's counterexample: report 5 bytes written, then send a
ping.  getInFlight returns lastPosition - pings.front().pos = 0 although
lastPosition = 5 differs from lastPong.pos = 0 (and from the initial state's
lastPosition = 0, so this is not the initial state). -/
def ops6c : List (Nat × CtrlOp) := [(0, CtrlOp.updatePos 5), (0, CtrlOp.sentPing)]

/-- The state reached by ops6c. -/
def s6c : Congestion := runOps (Congestion.init 0) ops6c

/-- Trace for claim C7's witness: one ping answered after 50 ms, so baseRTT =
minRTT = 50 with minCongestedRTT unset. -/
def ops7w : List (Nat × CtrlOp) := [(0, CtrlOp.sentPing), (50, CtrlOp.gotPong)]

/-- The state reached by ops7w (also claim C9's failing input: lastPosition =
lastPong.pos = 0, baseRTT = 50, no queued pings). -/
def s7w : Congestion := runOps (Congestion.init 0) ops7w

/-- Trace for claim C10's counterexample: a first batch of three pongs fixes
baseRTT = 2^20 ms and leaves congWindow = 16384, so congWindow * baseRTT =
2^34 overflows 32 bits; a second batch with compensated RTTs of
baseRTT + 101 ms then drives updateCongestion into the diff > 100 branch. -/
def ops10c : List (Nat × CtrlOp) :=
  [(0, CtrlOp.sentPing), (0, CtrlOp.sentPing), (0, CtrlOp.sentPing),
   (1048576, CtrlOp.gotPong), (1048576, CtrlOp.gotPong), (1048576, CtrlOp.gotPong),
   (1048576, CtrlOp.sentPing), (1048576, CtrlOp.sentPing), (1048576, CtrlOp.sentPing),
   (2097253, CtrlOp.gotPong), (2097253, CtrlOp.gotPong)]

/-- The state just before the third gotPong of the second batch of ops10c. -/
def s10pre : Congestion := runOps (Congestion.init 0) ops10c

/-- The state on which that gotPong invokes updateCongestion. -/
def s10inv : Congestion := s10pre.gotPongCore 2097253

/-- A concrete state exercising the diff > 100 branch without overflow, for
claim C10's witness: congWindow * baseRTT = 1638400 < 2^32. -/
def s10w : Congestion :=
  { Congestion.init 0 with baseRTT := 100, minRTT := 300, measurements := 3 }

/-- The inductive invariant: the window stays in [MINIMUM_WINDOW,
MAXIMUM_WINDOW], the three RTT fields are 32-bit values (UNSET = 2^32-1 is
the largest), and the batch minima never drop below baseRTT. -/
def StateInv (s : Congestion) : Prop :=
  MINIMUM_WINDOW ≤ s.congWindow ∧ s.congWindow ≤ MAXIMUM_WINDOW ∧
  s.baseRTT ≤ UNSET ∧ s.minRTT ≤ UNSET ∧ s.minCongestedRTT ≤ UNSET ∧
  s.baseRTT ≤ s.minRTT ∧ s.baseRTT ≤ s.minCongestedRTT

theorem msBetween_lt (a b : Nat) : msBetween a b < U32LIM := by
  unfold msBetween U32LIM
  omega

theorem clampWin_bounds (w : Nat) :
    MINIMUM_WINDOW ≤ clampWin w ∧ clampWin w ≤ MAXIMUM_WINDOW := by
  unfold clampWin MINIMUM_WINDOW MAXIMUM_WINDOW
  split_ifs <;> omega

theorem stateInv_init (t0 : Nat) : StateInv (Congestion.init t0) := by
  dsimp only [StateInv, Congestion.init, MINIMUM_WINDOW, MAXIMUM_WINDOW, INITIAL_WINDOW, UNSET]
  omega

theorem stateInv_updatePosition (s : Congestion) (now pos : Nat) (h : StateInv s) :
    StateInv (s.updatePosition now pos) := by
  obtain ⟨h1, h2, h3, h4, h5, h6, h7⟩ := h
  unfold Congestion.updatePosition StateInv
  dsimp only
  simp only [MINIMUM_WINDOW, MAXIMUM_WINDOW, INITIAL_WINDOW, UNSET] at *
  split_ifs <;> dsimp only <;> omega

theorem stateInv_sentPing (s : Congestion) (now : Nat) (h : StateInv s) :
    StateInv (s.sentPing now) := by
  obtain ⟨h1, h2, h3, h4, h5, h6, h7⟩ := h
  unfold Congestion.sentPing StateInv
  exact ⟨h1, h2, h3, h4, h5, h6, h7⟩

theorem stateInv_updateCongestion (s : Congestion) (now : Nat) (h : StateInv s) :
    StateInv (s.updateCongestion now) := by
  obtain ⟨h1, h2, h3, h4, h5, h6, h7⟩ := h
  unfold Congestion.updateCongestion
  split_ifs with hm
  · exact ⟨h1, h2, h3, h4, h5, h6, h7⟩
  · have hc := clampWin_bounds (windowStep s.congWindow s.baseRTT s.minRTT s.minCongestedRTT)
    exact ⟨hc.1, hc.2, h3, Nat.le_refl UNSET, Nat.le_refl UNSET, h3, h3⟩

theorem stateInv_gotPongCore (s : Congestion) (now : Nat) (h : StateInv s) :
    StateInv (s.gotPongCore now) := by
  obtain ⟨h1, h2, h3, h4, h5, h6, h7⟩ := h
  unfold Congestion.gotPongCore
  rcases s.pings with _ | ⟨r, rest⟩
  · exact ⟨h1, h2, h3, h4, h5, h6, h7⟩
  · dsimp only
    have hmb := msBetween_lt r.tv now
    unfold StateInv
    simp only [UNSET, U32LIM] at *
    split_ifs <;> (try dsimp only at *) <;> omega

theorem stateInv_gotPong (s : Congestion) (now : Nat) (h : StateInv s) :
    StateInv (s.gotPong now) := by
  unfold Congestion.gotPong
  split_ifs
  · exact stateInv_updateCongestion _ _ (stateInv_gotPongCore _ _ h)
  · exact stateInv_gotPongCore _ _ h

theorem stateInv_ctrlStep (s : Congestion) (p : Nat × CtrlOp) (h : StateInv s) :
    StateInv (ctrlStep s p) := by
  rcases p with ⟨now, op⟩
  cases op with
  | updatePos pos => exact stateInv_updatePosition s now pos h
  | sentPing => exact stateInv_sentPing s now h
  | gotPong => exact stateInv_gotPong s now h

theorem stateInv_runOps (ops : List (Nat × CtrlOp)) :
    ∀ s : Congestion, StateInv s → StateInv (runOps s ops) := by
  induction ops with
  | nil => intro s h; exact h
  | cons p rest ih => intro s h; exact ih (ctrlStep s p) (stateInv_ctrlStep s p h)

theorem stateInv_reachable (s : Congestion) (h : Reachable s) : StateInv s := by
  obtain ⟨t0, ops, -, rfl⟩ := h
  exact stateInv_runOps ops (Congestion.init t0) (stateInv_init t0)

theorem sub32_eq_of_le (a b : Nat) (h1 : b ≤ a) (h2 : a ≤ UNSET) : sub32 a b = a - b := by
  unfold sub32 UNSET U32LIM at *
  omega

theorem clampWin_eq (w : Nat) : clampWin w = min (max w MINIMUM_WINDOW) MAXIMUM_WINDOW := by
  unfold clampWin MINIMUM_WINDOW MAXIMUM_WINDOW
  split_ifs <;> omega

/-- Claim C1: for every finite sequence of calls to the public operations
starting from a fresh Controller, after each call the congestion window
satisfies MINIMUM_WINDOW (4096) ≤ congWindow ≤ MAXIMUM_WINDOW (4194304). -/
theorem C1_congWindow_in_bounds (s : Congestion) (h : Reachable s) :
    MINIMUM_WINDOW ≤ s.congWindow ∧ s.congWindow ≤ MAXIMUM_WINDOW := by
  have hi := stateInv_reachable s h
  exact ⟨hi.1, hi.2.1⟩

/-- Witness for C1 at the concrete reachable state s7w. -/
theorem C1_congWindow_in_bounds_check :
    MINIMUM_WINDOW ≤ s7w.congWindow ∧ s7w.congWindow ≤ MAXIMUM_WINDOW :=
  C1_congWindow_in_bounds s7w ⟨0, ops7w, by decide, rfl⟩

/-- Counterexample to claim C2 as stated: on a fresh Controller (baseRTT
unset), updatePosition at now = 200 with lastSent = 0 satisfies
now - lastSent = 200 > 100 ms, yet the idle-reset branch does not fire
(lastAdjustment would have become 200; it remains 0). -/
theorem C2_idle_threshold_cex :
    (Congestion.init 0).baseRTT = UNSET ∧
    100 < msBetween (Congestion.init 0).lastSent 200 ∧
    idleCond (Congestion.init 0).baseRTT (Congestion.init 0).lastSent 200 = false ∧
    ((Congestion.init 0).updatePosition 200 0).lastAdjustment = 0 := by
  refine ⟨by decide, by decide, by decide, by decide⟩

/-- Claim C2 (amended): while baseRTT is unset (stored as the unsigned value
2^32 - 1), baseRTT*2 wraps to 2^32 - 2, so the idle threshold is 2^32 - 2 ms
rather than 100 ms, and the idle-reset branch fires if and only if the 32-bit
elapsed time msBetween(lastSent, now) equals 2^32 - 1. -/
theorem C2_idle_threshold_unsetBase (b ls now : Nat) (hb : b = UNSET) :
    (idleCond b ls now = true ↔ msBetween ls now = UNSET) ∧
    max (b * 2 % U32LIM) 100 = U32LIM - 2 := by
  subst hb
  have hmb := msBetween_lt ls now
  constructor
  · unfold idleCond UNSET U32LIM at *
    simp only [decide_eq_true_eq]
    omega
  · decide

/-- Witness for C2 at b = UNSET, lastSent = 0, now = 2^32 - 1. -/
theorem C2_idle_threshold_unsetBase_check :
    (idleCond UNSET 0 4294967295 = true ↔ msBetween 0 4294967295 = UNSET) ∧
    max (UNSET * 2 % U32LIM) 100 = U32LIM - 2 :=
  C2_idle_threshold_unsetBase UNSET 0 4294967295 rfl

/-- Counterexample to claim C5 as stated: in the reachable state s5c,
baseRTT = 50 is set and isCongested() is false at t = 100 (interpolated
in-flight = 8192 < congWindow = 16384), yet getUncongestedETA() returns
50, not 0. -/
theorem C5_eta_uncongested_cex :
    Reachable s5c ∧ s5c.baseRTT ≠ UNSET ∧ s5c.isCongested 100 = false ∧
    s5c.getUncongestedETA 100 = 50 := by
  refine ⟨⟨0, ops5c, by decide, rfl⟩, by decide, by decide, by decide⟩

/-- Claim C5 (amended): in every reachable state in which baseRTT is set and
lastPong.pos > lastPosition - congWindow (unsigned), getUncongestedETA()
returns 0.  (isCongested() = false alone does not suffice: the in-flight
interpolation can report fewer than congWindow bytes in flight while the ETA
walk still returns a positive value, as the counterexample shows.) -/
theorem C5_eta_simple_case (s : Congestion) (now : Nat) (h : Reachable s)
    (hb : s.baseRTT ≠ UNSET)
    (hp : sub32 s.lastPosition s.congWindow < s.lastPong.pos) :
    s.getUncongestedETA now = 0 := by
  unfold Congestion.getUncongestedETA
  rw [if_pos hp]

/-- Witness for C5 at the concrete reachable state s5w. -/
theorem C5_eta_simple_case_check : s5w.getUncongestedETA 60 = 0 :=
  C5_eta_simple_case s5w 60 ⟨0, ops5w, by decide, rfl⟩ (by decide) (by decide)

/-- Counterexample to claim C6 as stated: the reachable state s6c is not the
initial state (every initial state has lastPosition = 0, but
s6c.lastPosition = 5), getInFlight() returns 0, and yet lastPosition differs
from lastPong.pos. -/
theorem C6_inflight_zero_cex :
    Reachable s6c ∧ s6c.getInFlight 0 = 0 ∧
    s6c.lastPosition ≠ s6c.lastPong.pos ∧ s6c.lastPosition ≠ 0 := by
  refine ⟨⟨0, ops6c, by decide, rfl⟩, by decide, by decide, by decide⟩

/-- Claim C6 (amended): if lastPosition equals lastPong.pos then getInFlight()
returns 0; the converse direction fails (see the counterexample, where the
baseRTT-unset estimate lastPosition - pings.front().pos is 0 although
lastPosition differs from lastPong.pos). -/
theorem C6_inflight_zero_of_pos_eq (s : Congestion) (now : Nat)
    (h : s.lastPosition = s.lastPong.pos) : s.getInFlight now = 0 := by
  unfold Congestion.getInFlight
  rw [if_pos h]

/-- Witness for C6 at the initial state. -/
theorem C6_inflight_zero_of_pos_eq_check : (Congestion.init 0).getInFlight 5 = 0 :=
  C6_inflight_zero_of_pos_eq (Congestion.init 0) 5 rfl

/-- Claim C7: in every reachable state in which baseRTT is set, minRTT (if
set) and minCongestedRTT (if set) are at least baseRTT.  Since the unset
sentinel 2^32 - 1 is the largest 32-bit value, this is stated as the two
unsigned inequalities minRTT ≥ baseRTT and minCongestedRTT ≥ baseRTT, which
are exactly the two assertions at the head of updateCongestion; they hold in
every reachable state, so the assertions never fail. -/
theorem C7_minRTT_ge_baseRTT (s : Congestion) (h : Reachable s)
    (hb : s.baseRTT ≠ UNSET) :
    s.baseRTT ≤ s.minRTT ∧ s.baseRTT ≤ s.minCongestedRTT := by
  have hi := stateInv_reachable s h
  exact ⟨hi.2.2.2.2.2.1, hi.2.2.2.2.2.2⟩

/-- Witness for C7 at the concrete reachable state s7w (baseRTT = minRTT =
50, minCongestedRTT unset). -/
theorem C7_minRTT_ge_baseRTT_check :
    s7w.baseRTT ≤ s7w.minRTT ∧ s7w.baseRTT ≤ s7w.minCongestedRTT :=
  C7_minRTT_ge_baseRTT s7w ⟨0, ops7w, by decide, rfl⟩ (by decide)

/-- Claim C8: gotPong() on an empty ping queue returns without changing any
state. -/
theorem C8_gotPong_empty_noop (s : Congestion) (now : Nat) (h : s.pings = []) :
    s.gotPong now = s := by
  unfold Congestion.gotPong Congestion.gotPongRuns Congestion.gotPongCore
  rw [h]
  simp

/-- Witness for C8 at the initial state. -/
theorem C8_gotPong_empty_noop_check : (Congestion.init 3).gotPong 5 = Congestion.init 3 :=
  C8_gotPong_empty_noop (Congestion.init 3) 5 rfl

/-- Claim C9 is wrong about the code: in the reachable state s7w (one ping
answered, nothing ever written) getUncongestedETA() falls through to the
final extrapolation - lastPong.pos = 0 is not above the wrapped targetAcked
and baseRTT = 50 is set, with no queued pings - and there divides by
lastPosition - prevPing.pos = 0 (line 268 computes 0*16384/0, undefined
behaviour in C).  The Lean model totalises the division as Nat division. -/
theorem C9_eta_division_by_zero :
    Reachable s7w ∧ s7w.baseRTT = 50 ∧ s7w.pings = [] ∧
    ¬ sub32 s7w.lastPosition s7w.congWindow < s7w.lastPong.pos ∧
    sub32 s7w.lastPosition s7w.lastPong.pos = 0 ∧
    s7w.etaHitsDivZero = true := by
  refine ⟨⟨0, ops7w, by decide, rfl⟩, by decide, by decide, by decide, by decide, by decide⟩

theorem windowStep_spec (cw b mr mc : Nat) (hm : mr ≤ UNSET) (hmc : mc ≤ UNSET)
    (hb1 : b ≤ mr) (hb2 : b ≤ mc) (hbu : b ≤ UNSET - 25)
    (hw1 : MINIMUM_WINDOW ≤ cw) (hw2 : cw ≤ MAXIMUM_WINDOW) :
    windowStep cw b mr mc =
      if 100 < mr - b then cw * b % U32LIM / mr
      else if 50 < mr - b then cw - 4096
      else if mc = UNSET then cw
      else if mc - b < 5 then cw + 8192
      else if mc - b < 25 then cw + 4096
      else cw := by
  unfold windowStep
  rw [sub32_eq_of_le mr b hb1 hm, sub32_eq_of_le mc b hb2 hmc,
    sub32_eq_of_le cw 4096 (by unfold MINIMUM_WINDOW at hw1; omega)
      (by unfold MAXIMUM_WINDOW at hw2; unfold UNSET; omega)]
  have h8 : (cw + 8192) % U32LIM = cw + 8192 := by
    unfold MAXIMUM_WINDOW at hw2; unfold U32LIM; omega
  have h4 : (cw + 4096) % U32LIM = cw + 4096 := by
    unfold MAXIMUM_WINDOW at hw2; unfold U32LIM; omega
  rw [h8, h4]
  unfold UNSET at *
  split_ifs <;> omega

/-- Counterexample to claim C4 as stated: in the reachable state s4pre the
third gotPong invokes updateCongestion with measurements = 3 and
minCongestedRTT unset, yet the window grows from 16384 to 24576: baseRTT =
2^32 - 5 makes the unsigned diff2 = (2^32 - 1) - baseRTT = 4 < 5, so the
increase branches are not skipped. -/
theorem C4_update_congestion_cex :
    Reachable s4pre ∧ s4pre.gotPongRuns = true ∧
    (s4pre.gotPongCore 4294967291).measurements = 3 ∧
    (s4pre.gotPongCore 4294967291).minCongestedRTT = UNSET ∧
    (s4pre.gotPongCore 4294967291).congWindow = 16384 ∧
    (s4pre.gotPong 4294967291).congWindow = 24576 := by
  refine ⟨⟨0, ops4c, by decide, rfl⟩, by decide, by decide, by decide, by decide, by decide⟩

/-- Claim C4 (amended): for every invocation of updateCongestion: if
measurements < 3 nothing changes; otherwise, with diff = minRTT - baseRTT,
congWindow becomes (congWindow * baseRTT mod 2^32) / minRTT when diff > 100
(the multiplication is 32-bit), congWindow - 4096 when 50 < diff ≤ 100, and
otherwise, with diff2 = minCongestedRTT - baseRTT, congWindow + 8192 when
diff2 < 5 and congWindow + 4096 when 5 ≤ diff2 < 25, else unchanged; the
result is clamped to [MINIMUM_WINDOW, MAXIMUM_WINDOW], measurements := 0,
lastAdjustment := now, and minRTT and minCongestedRTT become unset.  When
minCongestedRTT is unset the two increase branches are skipped provided
baseRTT ≤ 2^32 - 26 (diff2 is then the unsigned value (2^32-1) - baseRTT). -/
theorem C4_update_congestion_spec (s : Congestion) (now : Nat)
    (hm : s.minRTT ≤ UNSET) (hmc : s.minCongestedRTT ≤ UNSET)
    (hb1 : s.baseRTT ≤ s.minRTT) (hb2 : s.baseRTT ≤ s.minCongestedRTT)
    (hbu : s.baseRTT ≤ UNSET - 25)
    (hw1 : MINIMUM_WINDOW ≤ s.congWindow) (hw2 : s.congWindow ≤ MAXIMUM_WINDOW) :
    (s.measurements < 3 → s.updateCongestion now = s) ∧
    (3 ≤ s.measurements → s.updateCongestion now =
      { s with
        congWindow := min (max (
            if 100 < s.minRTT - s.baseRTT then s.congWindow * s.baseRTT % U32LIM / s.minRTT
            else if 50 < s.minRTT - s.baseRTT then s.congWindow - 4096
            else if s.minCongestedRTT = UNSET then s.congWindow
            else if s.minCongestedRTT - s.baseRTT < 5 then s.congWindow + 8192
            else if s.minCongestedRTT - s.baseRTT < 25 then s.congWindow + 4096
            else s.congWindow) MINIMUM_WINDOW) MAXIMUM_WINDOW
        measurements := 0
        lastAdjustment := now
        minRTT := UNSET
        minCongestedRTT := UNSET }) := by
  constructor
  · intro h
    unfold Congestion.updateCongestion
    rw [if_pos h]
  · intro h
    unfold Congestion.updateCongestion
    rw [if_neg (by omega)]
    rw [clampWin_eq, windowStep_spec s.congWindow s.baseRTT s.minRTT s.minCongestedRTT
      hm hmc hb1 hb2 hbu hw1 hw2]

/-- Witness for C4 at the concrete state s4w (diff = 70, so the linear
decrease applies: 16384 - 4096 = 12288). -/
theorem C4_update_congestion_spec_check :
    (s4w.updateCongestion 7).congWindow = 12288 ∧ (s4w.updateCongestion 7).minRTT = UNSET := by
  have h := (C4_update_congestion_spec s4w 7 (by decide) (by decide) (by decide) (by decide)
    (by decide) (by decide) (by decide)).2 (by decide)
  rw [h]
  exact ⟨by decide, by decide⟩

/-- Counterexample to claim C10 as stated: in the reachable state s10pre the
final gotPong invokes updateCongestion on s10inv with measurements = 3 and
diff = 101 > 100, while congWindow * baseRTT = 16384 * 2^20 = 2^34 ≥ 2^32.
The 32-bit computation yields (2^34 mod 2^32)/minRTT = 0 (clamped to 4096),
whereas the exact quotient is 16382. -/
theorem C10_window_mul_overflow_cex :
    Reachable s10pre ∧ s10pre.gotPongRuns = true ∧
    s10inv.measurements = 3 ∧ 100 < sub32 s10inv.minRTT s10inv.baseRTT ∧
    U32LIM ≤ s10inv.congWindow * s10inv.baseRTT ∧
    s10inv.congWindow * s10inv.baseRTT % U32LIM / s10inv.minRTT = 0 ∧
    s10inv.congWindow * s10inv.baseRTT / s10inv.minRTT = 16382 ∧
    (s10pre.gotPong 2097253).congWindow = 4096 := by
  refine ⟨⟨0, ops10c, by decide, rfl⟩, by decide, by decide, by decide, by decide,
    by decide, by decide, by decide⟩

/-- Claim C10 (amended): in the diff > 100 branch of updateCongestion the
multiplication congWindow * baseRTT is performed modulo 2^32; whenever the
product is below 2^32 the computed window equals the exact integer quotient
congWindow * baseRTT / minRTT (then clamped), but reachable states can
violate that bound, as the counterexample shows. -/
theorem C10_window_mul_exact (s : Congestion) (now : Nat)
    (h3 : 3 ≤ s.measurements) (hd : 100 < sub32 s.minRTT s.baseRTT)
    (hov : s.congWindow * s.baseRTT < U32LIM) :
    (s.updateCongestion now).congWindow =
      min (max (s.congWindow * s.baseRTT / s.minRTT) MINIMUM_WINDOW) MAXIMUM_WINDOW := by
  unfold Congestion.updateCongestion
  rw [if_neg (by omega)]
  dsimp only
  unfold windowStep
  rw [if_pos hd, Nat.mod_eq_of_lt hov, clampWin_eq]

/-- Witness for C10 at the concrete state s10w (16384 * 100 / 300 = 5461,
no overflow). -/
theorem C10_window_mul_exact_check : (s10w.updateCongestion 9).congWindow = 5461 := by
  have h := C10_window_mul_exact s10w 9 (by decide) (by decide) (by decide)
  rw [h]
  decide

theorem coldStart_fields (t0 t : Nat) :
    ((Congestion.init t0).updatePosition t 0).lastPosition = 0 ∧
    ((Congestion.init t0).updatePosition t 0).lastPong = ⟨0, 0, 0, false⟩ ∧
    ((Congestion.init t0).updatePosition t 0).baseRTT = UNSET ∧
    ((Congestion.init t0).updatePosition t 0).congWindow = 16384 := by
  unfold Congestion.updatePosition Congestion.init
  dsimp only
  split_ifs <;> refine ⟨?_, ?_, ?_, ?_⟩ <;> first | rfl | decide | simp_all [sub32, U32LIM, UNSET]

/-- Counterexample to claim C3 as stated: on a fresh Controller, after
updatePosition(0), getUncongestedETA() returns -1, not 0 (targetAcked =
0 - 16384 wraps to 4294950912, so lastPong.pos = 0 does not exceed it and
the unset baseRTT gives -1). -/
theorem C3_cold_start_cex :
    ((Congestion.init 0).updatePosition 0 0).getUncongestedETA 0 = -1 ∧ ((-1 : Int) ≠ 0) := by
  refine ⟨by decide, by decide⟩

/-- Claim C3 (amended): on a fresh Controller, after a single call
updatePosition(0): isCongested() returns false, getInFlight() returns 0,
getUncongestedETA() returns -1 (baseRTT is still unknown, and the wrapped
targetAcked prevents the simple-case 0), and congWindow equals 16384 -
regardless of the construction time, the call time and the query time. -/
theorem C3_cold_start_behavior (t0 t tq : Nat) :
    ((Congestion.init t0).updatePosition t 0).isCongested tq = false ∧
    ((Congestion.init t0).updatePosition t 0).getInFlight tq = 0 ∧
    ((Congestion.init t0).updatePosition t 0).getUncongestedETA tq = -1 ∧
    ((Congestion.init t0).updatePosition t 0).congWindow = 16384 := by
  obtain ⟨hpos, hpong, hbase, hcw⟩ := coldStart_fields t0 t
  have hIF : ((Congestion.init t0).updatePosition t 0).getInFlight tq = 0 := by
    unfold Congestion.getInFlight
    rw [hpos, hpong]
    simp
  refine ⟨?_, hIF, ?_, hcw⟩
  · unfold Congestion.isCongested
    rw [hIF, hcw]
    decide
  · unfold Congestion.getUncongestedETA
    rw [hpos, hpong, hbase, hcw]
    rw [if_neg (by decide), if_pos rfl]
